import Mathlib

/-!
Verification of `thread-scoped-rs` (`src/lib.rs`), a stable version of
`std::thread::scoped`.

Shallow embedding conventions:
* A Rust panic in library code is modeled as `Except.error msg` at the
  meta level; a function that can panic returns `Except String α`.
* The payload of a panic of the spawned closure is modeled as a `String`;
  `JoinHandle.result` holds the `Result<T, Box<Any>>` that
  `std::thread::JoinHandle::join` would return (`Except.ok v` when the
  closure ran to completion producing `v`, `Except.error p` when the
  spawned thread panicked with payload `p`).
* The Rust lifetime parameter `'a` of `JoinGuard<'a, T>` is mirrored by an
  explicit `Lifetime` index (`bounded` for a borrowed lifetime, `unbounded`
  for `'static`); `detach` is defined only at `unbounded`, mirroring
  `impl<T: Send + 'static> ScopedDetach for JoinGuard<'static, T>`.
* The heap used by `scoped` (`Box::new` / `forget` / `transmute` back in
  the thread entry point) is a list of closures addressed by index; the
  raw pointer is the index.
* Consumption / mutation of `self` is made explicit: `joinSt` and `dropSt`
  return the result together with the state the guard is left in.
-/

namespace ThreadScoped

/-- Mirror of the Rust lifetime parameter `'a` of `JoinGuard<'a, T>`:
`unbounded` stands for `'static`, `bounded` for any borrowed lifetime. -/
inductive Lifetime where
  | bounded
  | unbounded
deriving DecidableEq, Repr

/-- Model of `std::thread::Thread`: metadata identifying a thread. -/
structure Thread where
  tid : Nat
deriving DecidableEq, Repr

/-- The `Debug` rendering of a `Thread`, used in panic messages. -/
def threadDebug (t : Thread) : String :=
  "Thread(" ++ toString t.tid ++ ")"

/-- The message of the panic raised by `Option::unwrap` on `None`. -/
def unwrapNoneMsg : String := "called Option::unwrap() on a None value"

/-- The message the source intends to raise when a child thread panicked:
`panic!("child thread \x7b:?\x7d panicked", self.thread())`. -/
def childPanicMsg (t : Thread) : String :=
  "child thread " ++ threadDebug t ++ " panicked"

/-- Model of `std::thread::JoinHandle<T>`: the thread's metadata together
with the outcome `join` on the handle would deliver. -/
structure JoinHandle (T : Type) where
  thread : Thread
  result : Except String T
deriving Repr

/-- Model of `JoinGuard<'a, T>` from `src/lib.rs`: an optional underlying
`JoinHandle` (the `PhantomData<&'a T>` marker is the `lt` index). -/
structure JoinGuard (lt : Lifetime) (T : Type) where
  inner : Option (JoinHandle T)
deriving Repr

/-- `Option::unwrap`: panics (with the standard message) on `None`. -/
def optUnwrap {α : Type} : Option α → Except String α
  | some a => Except.ok a
  | none => Except.error unwrapNoneMsg

/-- `JoinGuard::thread`: `&self.inner.as_ref().unwrap().thread()`.
Pure (takes `&self`), panics iff the handle is absent. -/
def JoinGuard.thread {lt : Lifetime} {T : Type} (g : JoinGuard lt T) :
    Except String Thread :=
  (optUnwrap g.inner).map JoinHandle.thread

/-- `JoinGuard::join` with the final guard state made explicit.  Mirrors
the source faithfully: `self.inner.take()` first empties the handle, then
the taken option is unwrapped and the handle joined; in the `Err` branch
the panic message argument `self.thread()` is evaluated on the
already-emptied guard.  The second component is the state of `self` when
the trailing implicit drop of the consumed guard runs. -/
def JoinGuard.joinSt {lt : Lifetime} {T : Type} (g : JoinGuard lt T) :
    Except String T × JoinGuard lt T :=
  let taken := g.inner
  let self' : JoinGuard lt T := { inner := none }
  let res : Except String T :=
    match optUnwrap taken with
    | Except.error e => Except.error e
    | Except.ok hd =>
      match hd.result with
      | Except.ok r => Except.ok r
      | Except.error _ =>
        match self'.thread with
        | Except.error e => Except.error e
        | Except.ok t => Except.error (childPanicMsg t)
  (res, self')

/-- `JoinGuard::join`: the value (or panic) it delivers to the caller. -/
def JoinGuard.join {lt : Lifetime} {T : Type} (g : JoinGuard lt T) :
    Except String T :=
  g.joinSt.1

/-- `Drop for JoinGuard` with the final guard state made explicit:
`self.inner.take().map(|v| if v.join().is_err() \x7b panic!(..., self.thread()) \x7d)`.
As in `join`, the panic message argument `self.thread()` is evaluated
after the handle has been taken. -/
def JoinGuard.dropSt {lt : Lifetime} {T : Type} (g : JoinGuard lt T) :
    Except String Unit × JoinGuard lt T :=
  let self' : JoinGuard lt T := { inner := none }
  let res : Except String Unit :=
    match g.inner with
    | none => Except.ok ()
    | some v =>
      match v.result with
      | Except.ok _ => Except.ok ()
      | Except.error _ =>
        match self'.thread with
        | Except.error e => Except.error e
        | Except.ok t => Except.error (childPanicMsg t)
  (res, self')

/-- `ScopedDetach::detach` for `JoinGuard<'static, T>`:
`let _ = self.inner.take();` — discards the handle; the guard's trailing
drop then sees an empty handle.  Defined only at `Lifetime.unbounded`,
mirroring that the trait is implemented only for `'static`; it returns a
plain guard state (no `Except`), as no code path can panic or wait. -/
def JoinGuard.detach {T : Type} (g : JoinGuard Lifetime.unbounded T) :
    JoinGuard Lifetime.unbounded T :=
  let _ := g.inner
  { inner := none }

/-- The heap on which `scoped` boxes the closure: closures by address. -/
abbrev Heap (F : Type) : Type := List F

/-- `Box::new(f)` followed by taking the raw pointer: allocates `f` at a
fresh address and returns the new heap and that address.  `forget(b)` in
the source means the allocation is never removed. -/
def boxNew {F : Type} (h : Heap F) (f : F) : Heap F × Nat :=
  (h ++ [f], h.length)

/-- Dereferencing the opaque pointer inside the spawned thread:
`transmute::<_, Box<F>>(b_ptr.0 as *mut F)`. -/
def readBox {F : Type} (h : Heap F) (ptr : Nat) : Option F :=
  h[ptr]?

/-- The spawned thread's entry point
`move || transmute::<_, Box<F>>(b_ptr.0 as *mut F)()`: recovers the boxed
closure from the heap and invokes it.  The first component records, in
order, every closure value the entry point invokes (so invocation count
and argument are observable); the second is the thread's outcome.
`call` is the FnOnce invocation `f()`, producing `Except.ok v` on normal
completion and `Except.error p` when the closure panics. -/
def threadEntry {F T : Type} (call : F → Except String T) (h : Heap F)
    (ptr : Nat) : List F × Except String T :=
  match readBox h ptr with
  | some g => ([g], call g)
  | none => ([], Except.error "invalid closure pointer")

/-- `scoped`: boxes the closure, forgets the box, spawns a thread running
`threadEntry` on the opaque pointer, and wraps the resulting handle in a
fresh `JoinGuard`.  Returns the heap after the allocation together with
the guard; `t` is the spawned thread's identity supplied by the host
`spawn` primitive. -/
def scoped' (lt : Lifetime) {F T : Type} (t : Thread) (heap : Heap F)
    (call : F → Except String T) (f : F) : Heap F × JoinGuard lt T :=
  let alloc := boxNew heap f
  let run := threadEntry call alloc.1 alloc.2
  (alloc.1, { inner := some { thread := t, result := run.2 } })

/-- The closure freshly boxed by `scoped` is recovered exactly. -/
theorem readBox_boxNew {F : Type} (h : Heap F) (f : F) :
    readBox (boxNew h f).1 (boxNew h f).2 = some f := by
  simp [readBox, boxNew]

/-- The handle `scoped` wraps: the supplied thread identity, and as
result the invocation of the original closure. -/
theorem scoped_inner {lt : Lifetime} {F T : Type} (t : Thread)
    (heap : Heap F) (call : F → Except String T) (f : F) :
    (scoped' lt t heap call f).2.inner =
      some { thread := t, result := call f } := by
  simp [scoped', threadEntry, readBox_boxNew]

/-- What `join` on a guard fresh from `scoped` delivers: the closure's
value on normal completion, and on a child panic the `Option::unwrap`
panic (the handle was already taken when `self.thread()` is evaluated
for the intended message). -/
theorem join_scoped (lt : Lifetime) {F T : Type} (t : Thread)
    (heap : Heap F) (call : F → Except String T) (f : F) :
    (scoped' lt t heap call f).2.join =
      match call f with
      | Except.ok v => Except.ok v
      | Except.error _ => Except.error unwrapNoneMsg := by
  cases hc : call f <;>
    simp [JoinGuard.join, JoinGuard.joinSt, JoinGuard.thread, scoped',
      threadEntry, readBox_boxNew, optUnwrap, hc, Except.map]

/-!
Model for the implicit-join / happens-before scenario (spec §5, §8.2):
a caller spawns a closure mutating a borrowed variable, then destroys the
guard without an explicit `join`.  The two threads are modeled as a small
transition system.  The spawned thread's whole effect is one step applying
the mutation `f` to the shared state and marking itself done; the caller's
destruction of the guard is one step that is *enabled only once the
spawned thread is done*, which is exactly what `Drop for JoinGuard`
guarantees by calling the host's blocking `JoinHandle::join` on the live
handle.  The caller's reads after destruction see the final `shared`.
-/

/-- Caller position: before the guard's destruction, or after it. -/
inductive CallerPC where
  | beforeDrop
  | afterDrop
deriving DecidableEq, Repr

/-- Configuration: caller position, whether the spawned thread has
finished, and the shared (borrowed) state. -/
structure MutConf (S : Type) where
  pc : CallerPC
  threadDone : Bool
  shared : S
deriving DecidableEq, Repr

/-- Interleaving steps: the spawned thread runs its mutation to
completion, or the caller's drop completes — only after the thread is
done, since the destructor blocks on `JoinHandle::join`. -/
inductive MutStep {S : Type} (f : S → S) : MutConf S → MutConf S → Prop where
  | thread (pc : CallerPC) (s : S) :
      MutStep f ⟨pc, false, s⟩ ⟨pc, true, f s⟩
  | dropJoin (s : S) :
      MutStep f ⟨CallerPC.beforeDrop, true, s⟩ ⟨CallerPC.afterDrop, true, s⟩

/-- Configurations reachable from the initial one (caller about to drop,
thread not yet run, shared state `s0`). -/
inductive MutReach {S : Type} (f : S → S) (s0 : S) : MutConf S → Prop where
  | init : MutReach f s0 ⟨CallerPC.beforeDrop, false, s0⟩
  | step {c c' : MutConf S} :
      MutReach f s0 c → MutStep f c c' → MutReach f s0 c'

/-- Invariant of the implicit-join system: either the thread has not run
and the shared state is untouched, or the thread is done and the mutation
has been applied; moreover the caller is past the drop only if the thread
is done. -/
theorem mutReach_invariant {S : Type} (f : S → S) (s0 : S)
    (c : MutConf S) (h : MutReach f s0 c) :
    (c.threadDone = false ∧ c.pc = CallerPC.beforeDrop ∧ c.shared = s0)
    ∨ (c.threadDone = true ∧ c.shared = f s0) := by
  induction h with
  | init => exact Or.inl ⟨rfl, rfl, rfl⟩
  | step hr hs ih =>
    cases hs with
    | thread pc s =>
      rcases ih with ⟨_, _, hsh⟩ | ⟨hd, _⟩
      · exact Or.inr ⟨rfl, by simp_all⟩
      · simp_all
    | dropJoin s =>
      rcases ih with ⟨hd, _, _⟩ | ⟨_, hsh⟩
      · simp_all
      · exact Or.inr ⟨rfl, hsh⟩

/-- C1: for every closure `f` that runs to completion producing a value
`v`, calling `join` on the guard returned by `scoped(f)` returns exactly
`v`. -/
theorem C1_join_returns_produced_value (lt : Lifetime) {F T : Type}
    (t : Thread) (heap : Heap F) (call : F → Except String T) (f : F)
    (v : T) (h : call f = Except.ok v) :
    (scoped' lt t heap call f).2.join = Except.ok v := by
  rw [join_scoped, h]

/-- Witness for C1 at a concrete closure producing `41`. -/
theorem C1_join_returns_produced_value_witness :
    ((fun _ : Unit => (Except.ok 41 : Except String Nat)) ()
        = Except.ok 41)
      ∧ (scoped' Lifetime.bounded ⟨1⟩ ([] : Heap Unit)
          (fun _ => (Except.ok 41 : Except String Nat)) ()).2.join
          = Except.ok 41 :=
  ⟨rfl, C1_join_returns_produced_value Lifetime.bounded ⟨1⟩ []
    (fun _ => Except.ok 41) () 41 rfl⟩

/-- C2: for every closure whose spawned thread terminates by panicking,
`join` on the guard fails abnormally (panics in the caller) and never
returns a result or error value. -/
theorem C2_join_fails_abnormally_on_child_panic (lt : Lifetime)
    {F T : Type} (t : Thread) (heap : Heap F)
    (call : F → Except String T) (f : F) (p : String)
    (h : call f = Except.error p) :
    (∃ e : String, (scoped' lt t heap call f).2.join = Except.error e)
      ∧ ∀ v : T, (scoped' lt t heap call f).2.join ≠ Except.ok v := by
  rw [join_scoped, h]
  exact ⟨⟨unwrapNoneMsg, rfl⟩, fun v hv => by cases hv⟩

/-- Witness for C2 at a concrete panicking closure. -/
theorem C2_join_fails_abnormally_on_child_panic_witness :
    ((fun _ : Unit => (Except.error "boom" : Except String Nat)) ()
        = Except.error "boom")
      ∧ ((∃ e : String,
            (scoped' Lifetime.bounded ⟨1⟩ ([] : Heap Unit)
              (fun _ => (Except.error "boom" : Except String Nat)) ()).2.join
              = Except.error e)
          ∧ ∀ v : Nat,
              (scoped' Lifetime.bounded ⟨1⟩ ([] : Heap Unit)
                (fun _ => (Except.error "boom" : Except String Nat)) ()).2.join
                ≠ Except.ok v) :=
  ⟨rfl, C2_join_fails_abnormally_on_child_panic Lifetime.bounded ⟨1⟩ []
    (fun _ => Except.error "boom") () "boom" rfl⟩

/-- C3: the claim says the abrupt failure surfaced on a background panic
carries diagnostic identification of the failed thread.  The code cannot
produce that message: `self.inner.take()` has already emptied the handle
when the `panic!` argument `self.thread()` is evaluated, so `thread`'s
`unwrap` panics first, with the `Option::unwrap` message — identical for
every thread identity and different from the intended
`child thread ... panicked` message. -/
theorem C3_panic_message_lacks_thread_id :
    (∀ t : Thread,
        (scoped' Lifetime.bounded t ([] : Heap Unit)
          (fun _ => (Except.error "boom" : Except String Nat)) ()).2.join
          = Except.error unwrapNoneMsg)
      ∧ (∀ (t : Thread) (p : String),
          (JoinGuard.dropSt
              (⟨some ⟨t, Except.error p⟩⟩ : JoinGuard Lifetime.bounded Nat)).1
            = Except.error unwrapNoneMsg)
      ∧ ∀ t : Thread, unwrapNoneMsg ≠ childPanicMsg t := by
  refine ⟨?_, fun t p => rfl, ?_⟩
  · intro t
    rw [join_scoped]
  · intro t h
    have h2 := congrArg (fun s : String => s.data) h
    simp only [childPanicMsg, unwrapNoneMsg, threadDebug,
      String.data_append] at h2
    have h3 := congrArg (fun l => l[1]?) h2
    simp [String.data] at h3

/-- C4: a guard destroyed while still holding its handle performs, at the
level of delivered outcomes, the same join as explicit `join` with the
result discarded: success is discarded, and if the background thread
panicked the destructor itself fails abnormally. -/
theorem C4_drop_joins_and_escalates_panic (lt : Lifetime) {T : Type}
    (t : Thread) (v : T) (p : String) :
    (JoinGuard.dropSt (⟨some ⟨t, Except.ok v⟩⟩ : JoinGuard lt T)).1
        = Except.ok ()
      ∧ (JoinGuard.dropSt
            (⟨some ⟨t, Except.error p⟩⟩ : JoinGuard lt T)).1
          = Except.error unwrapNoneMsg
      ∧ ∀ r : Except String T,
          (JoinGuard.dropSt (⟨some ⟨t, r⟩⟩ : JoinGuard lt T)).1
            = Except.map (fun _ => ())
                (JoinGuard.joinSt (⟨some ⟨t, r⟩⟩ : JoinGuard lt T)).1 := by
  refine ⟨rfl, rfl, fun r => ?_⟩
  cases r <;>
    simp [JoinGuard.dropSt, JoinGuard.joinSt, JoinGuard.thread, optUnwrap,
      Except.map]

/-- C5: `join` leaves the guard with its handle cleared, so the implicit
destruction that follows the consumption of the guard performs no join
and changes nothing. -/
theorem C5_join_clears_handle_drop_noop (lt : Lifetime) {T : Type}
    (g : JoinGuard lt T) :
    (g.joinSt).2.inner = none
      ∧ (g.joinSt).2.dropSt = (Except.ok (), (g.joinSt).2) := by
  exact ⟨rfl, rfl⟩

/-- C6: the handle-presence invariant — `scoped` constructs a guard
holding a handle; `join`, `drop` and `detach` each leave the guard with
no handle; and a guard with no handle is inert under destruction. -/
theorem C6_handle_present_iff_unjoined (lt : Lifetime) {F T : Type}
    (t : Thread) (heap : Heap F) (call : F → Except String T) (f : F)
    (g : JoinGuard lt T) (g0 : JoinGuard Lifetime.unbounded T) :
    ((scoped' lt t heap call f).2.inner).isSome = true
      ∧ (g.joinSt).2.inner = none
      ∧ (g.dropSt).2.inner = none
      ∧ (g0.detach).inner = none
      ∧ (⟨none⟩ : JoinGuard lt T).dropSt
          = (Except.ok (), (⟨none⟩ : JoinGuard lt T)) := by
  refine ⟨?_, rfl, rfl, rfl, rfl⟩
  rw [Option.isSome_iff_exists]
  exact ⟨_, scoped_inner t heap call f⟩

/-- C7: `detach` — defined only at the unbounded (`'static`) lifetime,
mirroring that `ScopedDetach` is implemented only for
`JoinGuard<'static, T>`, so a bounded-lifetime guard has no `detach` to
call and no runtime check exists — consumes the guard and discards the
handle; its result is the same whatever the thread's outcome (it never
waits on or inspects it, so a panic in the detached thread reaches no
caller), and the guard's subsequent destruction does nothing. -/
theorem C7_detach_discards_without_waiting {T : Type} (t : Thread)
    (r r' : Except String T) :
    (JoinGuard.detach ⟨some ⟨t, r⟩⟩).inner = none
      ∧ JoinGuard.detach (⟨some ⟨t, r⟩⟩ : JoinGuard Lifetime.unbounded T)
          = JoinGuard.detach ⟨some ⟨t, r'⟩⟩
      ∧ (JoinGuard.detach
            (⟨some ⟨t, r⟩⟩ : JoinGuard Lifetime.unbounded T)).dropSt
          = (Except.ok (), JoinGuard.detach ⟨some ⟨t, r⟩⟩) :=
  ⟨rfl, rfl, rfl⟩

/-- C8: while the guard holds its handle, `thread` returns the underlying
thread's metadata and its internal `unwrap` cannot fail (the guard itself
is untouched: `thread` takes the guard by shared reference and is a pure
function of it). -/
theorem C8_thread_accessor_total_on_live_guard {lt : Lifetime} {T : Type}
    (g : JoinGuard lt T) (hd : JoinHandle T) (h : g.inner = some hd) :
    g.thread = Except.ok hd.thread := by
  simp [JoinGuard.thread, h, optUnwrap, Except.map]

/-- Witness for C8 on a concrete live guard. -/
theorem C8_thread_accessor_total_on_live_guard_witness :
    ((⟨some ⟨⟨7⟩, Except.ok (0 : Nat)⟩⟩ : JoinGuard Lifetime.bounded Nat).inner
        = some ⟨⟨7⟩, Except.ok 0⟩)
      ∧ (⟨some ⟨⟨7⟩, Except.ok (0 : Nat)⟩⟩
            : JoinGuard Lifetime.bounded Nat).thread = Except.ok ⟨7⟩ :=
  ⟨rfl, C8_thread_accessor_total_on_live_guard
    ⟨some ⟨⟨7⟩, Except.ok 0⟩⟩ ⟨⟨7⟩, Except.ok 0⟩ rfl⟩

/-- C9: in every interleaving of the implicit-join system — where guard
destruction can complete only after the spawned thread has finished,
because the destructor blocks on `JoinHandle::join` — once the caller is
past the destruction, the shared state carries the background thread's
mutation: thread completion happens before the caller's subsequent
reads. -/
theorem C9_implicit_join_mutation_visible {S : Type} (f : S → S) (s0 : S)
    (c : MutConf S) (hr : MutReach f s0 c)
    (hpc : c.pc = CallerPC.afterDrop) : c.shared = f s0 := by
  rcases mutReach_invariant f s0 c hr with ⟨_, hpc', _⟩ | ⟨_, hsh⟩
  · rw [hpc'] at hpc
    cases hpc
  · exact hsh

/-- Witness for C9: the concrete run of spec §8.2 — shared flag starts
at 5, the thread sets it to 2, the guard is dropped, the caller reads
2. -/
theorem C9_implicit_join_mutation_visible_witness :
    MutReach (fun _ : Nat => 2) 5 ⟨CallerPC.afterDrop, true, 2⟩
      ∧ (⟨CallerPC.afterDrop, true, 2⟩ : MutConf Nat).shared
          = (fun _ : Nat => 2) 5 := by
  have hreach : MutReach (fun _ : Nat => 2) 5
      ⟨CallerPC.afterDrop, true, 2⟩ :=
    MutReach.step
      (MutReach.step MutReach.init (MutStep.thread CallerPC.beforeDrop 5))
      (MutStep.dropJoin 2)
  exact ⟨hreach, C9_implicit_join_mutation_visible (fun _ => 2) 5
    ⟨CallerPC.afterDrop, true, 2⟩ hreach rfl⟩

/-- C10: `scoped` boxes the closure at a fresh heap address, transfers
that address (as an opaque pointer) into the spawned thread's entry
point, which recovers exactly the original closure and invokes it exactly
once — the invocation log of the entry point is precisely `[f]`, its
outcome is `f`'s own outcome, and that outcome (not any caller-side
invocation) is what the guard's handle carries. -/
theorem C10_closure_transferred_and_invoked_once {F T : Type}
    (heap : Heap F) (call : F → Except String T) (f : F) :
    threadEntry call (boxNew heap f).1 (boxNew heap f).2 = ([f], call f)
      ∧ ∀ (t : Thread) (lt : Lifetime),
          (scoped' lt t heap call f).2.inner
            = some { thread := t, result := call f } := by
  refine ⟨?_, fun t lt => scoped_inner t heap call f⟩
  simp [threadEntry, readBox_boxNew]

end ThreadScoped
